import Mathlib

set_option linter.unusedVariables false

namespace SimplePoll

/-- A poll option as held by the frontend store (interface `Option` in
Poll.vue: fields `id`, `text`, `votes`). -/
structure PollOption where
  id : Int
  text : String
  votes : Int
  deriving DecidableEq

/-- An option record as delivered by the backend: the `ID`, `Text`, `Votes`
fields of `/api/poll` responses and of SSE payload entries. -/
structure ApiOption where
  ID : Int
  Text : String
  Votes : Int
  deriving DecidableEq

/-- The normalization performed by the two `.map` calls in Poll.vue
(fetchData and the SSE onmessage handler): rename the server fields to the
store shape, keeping order. -/
def apiToOption (o : ApiOption) : PollOption :=
  { id := o.ID, text := o.Text, votes := o.Votes }

/-- Severity of a console message (console.log / console.warn /
console.error). -/
inductive LogLevel where
  | info
  | warn
  | error
  deriving DecidableEq

/-- One console message emitted by the component. -/
structure LogEntry where
  level : LogLevel
  msg : String
  deriving DecidableEq

/-- The component's reactive state: `options` (the stored snapshot),
`selected` (where `none` models the initial `undefined`), `hasVoted`, and
the durable localStorage flag backing `hasVoted`. -/
structure StoreState where
  options : List PollOption
  selected : Option Int
  hasVoted : Bool
  localHasVoted : Bool
  deriving DecidableEq

namespace Store

/-- The store replacement operation: the assignment `options.value = s`
(performed by fetchData and by the SSE onmessage handler). -/
def replace (st : StoreState) (s : List PollOption) : StoreState :=
  { st with options := s }

end Store

/-- Shape of `res.data.Options` as discriminated by the guard
`res.data.Options && Array.isArray(res.data.Options)` in fetchData. -/
inductive OptionsField where
  | missing
  | notSeq
  | seq (l : List ApiOption)
  deriving DecidableEq

/-- Shape of `res.data`: falsy, or an object carrying an `Options` field of
some shape. -/
inductive RespData where
  | nullish
  | obj (opts : OptionsField)
  deriving DecidableEq

/-- fetchData (Poll.vue lines 18-38). On a successful response, if
`res.data && res.data.Options && Array.isArray(res.data.Options)` holds the
mapped options replace the store, otherwise the store is set to `[]` with a
warning. On a network error the failure is logged, the store is set to `[]`
and the error is rethrown. -/
def fetchData (st : StoreState) (res : Except Unit RespData) :
    StoreState × Except Unit Unit × List LogEntry :=
  match res with
  | .ok d =>
      match d with
      | .obj (.seq l) =>
          (Store.replace st (l.map apiToOption), .ok (),
            [⟨.info, "成功获取数据，选项数量:"⟩])
      | _ =>
          (Store.replace st [], .ok (),
            [⟨.warn, "API返回的数据格式不正确:"⟩])
  | .error e =>
      (Store.replace st [], .error e, [⟨.error, "获取数据失败:"⟩])

/-- The mutable data of one Chart instance: `data.labels` and
`data.datasets[0].data`. -/
structure ChartData where
  labels : List String
  dataArr : List Int
  deriving DecidableEq

/-- One Chart object ever constructed: its current data arrays and whether
`destroy()` has been called on it. -/
structure ChartRec where
  cdata : ChartData
  live : Bool
  deriving DecidableEq

/-- Chart-side state: every chart resource allocated so far (the list index
is the object identity) plus the `chart` module variable, where `none`
models `null`. -/
structure ChartEnv where
  resources : List ChartRec
  chartVar : Option Nat
  deriving DecidableEq

/-- The chart state at component start: no resource allocated, the `chart`
variable is `null`. -/
def ChartEnv.init : ChartEnv := ⟨[], none⟩

/-- Mark resource `i` destroyed (the `chart.destroy()` call). -/
def destroyIdx (l : List ChartRec) (i : Nat) : List ChartRec :=
  match l[i]? with
  | some r => l.set i { r with live := false }
  | none => l

/-- The `if (chart) chart.destroy()` step of initChart: destroy the resource
the `chart` variable points to, if any. -/
def destroyCurrent (env : ChartEnv) : List ChartRec :=
  match env.chartVar with
  | some i => destroyIdx env.resources i
  | none => env.resources

/-- initChart (Poll.vue lines 59-155). Skips with a warning when the
snapshot is empty, skips with an error log when the canvas is missing;
otherwise destroys the previously held chart (if any) and constructs a new
one whose labels are the option texts and whose data are the vote counts.
A constructor exception is caught and logged, leaving the `chart` variable
pointing at the already destroyed old object. -/
def initChart (options : List PollOption) (env : ChartEnv)
    (canvasPresent : Bool) (ctorFails : Bool) : ChartEnv × List LogEntry :=
  if options.isEmpty then
    (env, [⟨.warn, "初始化图表失败：没有选项数据或数据格式不正确"⟩])
  else if !canvasPresent then
    (env, [⟨.error, "初始化图表失败：找不到canvas元素"⟩])
  else
    let resources1 := destroyCurrent env
    if ctorFails then
      ({ resources := resources1, chartVar := env.chartVar },
        [⟨.info, "初始化图表，数据:"⟩, ⟨.error, "创建图表时发生错误:"⟩])
    else
      ({ resources := resources1 ++
            [⟨⟨options.map PollOption.text, options.map PollOption.votes⟩, true⟩],
         chartVar := some resources1.length },
        [⟨.info, "初始化图表，数据:"⟩])

/-- updateChart (Poll.vue lines 158-177). Skips with a warning when no
chart instance exists or when the snapshot is empty; otherwise mutates the
held chart's label and data arrays in place and requests a redraw
(`chart.update()`), whose exception, if any, is caught and logged after the
arrays were already assigned. -/
def updateChart (options : List PollOption) (env : ChartEnv)
    (updateFails : Bool) : ChartEnv × List LogEntry :=
  match env.chartVar with
  | none => (env, [⟨.warn, "更新图表失败：图表实例不存在"⟩])
  | some i =>
      if options.isEmpty then
        (env, [⟨.warn, "更新图表失败：没有有效的选项数据"⟩])
      else
        let env' : ChartEnv :=
          { env with resources :=
              match env.resources[i]? with
              | some r => env.resources.set i
                  { r with cdata :=
                      ⟨options.map PollOption.text, options.map PollOption.votes⟩ }
              | none => env.resources }
        (env', if updateFails then [⟨.error, "更新图表时发生错误:"⟩] else [])

/-- Truthiness of `selected.value` in the guard `!selected.value` of
submitVote: both `undefined` and the number 0 are falsy. -/
def selectedFalsy (v : Option Int) : Bool :=
  match v with
  | none => true
  | some n => n == 0

/-- Whether an `Except` result models a successful request. -/
def exceptOk (r : Except Unit Unit) : Bool :=
  match r with
  | .ok _ => true
  | .error _ => false

/-- The outcome of one submitVote call: resulting component state, chart
state, emitted logs, and whether the POST request was actually issued. -/
structure VoteResult where
  st : StoreState
  env : ChartEnv
  logs : List LogEntry
  requested : Bool
  deriving DecidableEq

/-- submitVote (Poll.vue lines 41-56). Returns immediately when
`!selected.value || hasVoted.value`. Otherwise issues the POST; on success
sets `hasVoted`, persists it to localStorage, re-fetches the snapshot and
updates the chart; any failure (of the POST or of the re-fetch) is caught
and logged. -/
def submitVote (st : StoreState) (env : ChartEnv)
    (postRes : Except Unit Unit) (fetchRes : Except Unit RespData)
    (updateFails : Bool) : VoteResult :=
  if selectedFalsy st.selected || st.hasVoted then
    ⟨st, env, [], false⟩
  else
    match postRes with
    | .error _ => ⟨st, env, [⟨.error, "提交投票失败:"⟩], true⟩
    | .ok _ =>
        let st1 := { st with hasVoted := true, localHasVoted := true }
        match fetchData st1 fetchRes with
        | (st2, .error _, l) =>
            ⟨st2, env, l ++ [⟨.error, "提交投票失败:"⟩], true⟩
        | (st2, .ok _, l) =>
            let r2 := updateChart st2.options env updateFails
            ⟨st2, r2.1, l ++ r2.2, true⟩

/-- One SSE message as seen by the onmessage handler: a payload on which
`JSON.parse` throws, a payload that parses but is not an array, or a parsed
array of option records (the `length > 0` part of the guard is re-checked
on the list itself). -/
inductive SseMsg where
  | malformed
  | notSnapshot
  | snapshot (l : List ApiOption)
  deriving DecidableEq

/-- The eventSource.onmessage handler body (Poll.vue lines 198-216): a
well-formed non-empty array replaces the store with the normalized options
and updates the chart; anything else is logged and ignored. -/
def onmessage (opts : List PollOption) (env : ChartEnv) (msg : SseMsg)
    (updateFails : Bool) : List PollOption × ChartEnv × List LogEntry :=
  match msg with
  | .malformed => (opts, env, [⟨.error, "解析SSE数据失败:"⟩])
  | .notSnapshot => (opts, env, [⟨.warn, "收到的SSE数据格式不正确:"⟩])
  | .snapshot l =>
      if l.isEmpty then
        (opts, env, [⟨.warn, "收到的SSE数据格式不正确:"⟩])
      else
        let opts' := l.map apiToOption
        let r := updateChart opts' env updateFails
        (opts', r.1, r.2)

/-- One EventSource object: whether `close()` has been called on it and
whether the onmessage/onerror handlers were assigned to it. Only the
EventSource created in onMounted gets handlers; the one created inside the
onerror reconnect callback gets none. -/
structure Conn where
  closed : Bool
  hasHandlers : Bool
  deriving DecidableEq

/-- State of the live-update subscription: every EventSource ever created
(the list index is the object identity), the index the `eventSource`
variable currently holds, the pending reconnect timers (their delays in
milliseconds), and the store/chart state the handlers act on. -/
structure SseState where
  conns : List Conn
  current : Nat
  pendingDelays : List Nat
  opts : List PollOption
  env : ChartEnv
  logs : List LogEntry
  deriving DecidableEq

/-- The events the subscription reacts to: a transport error delivered to
connection `i`, a pending reconnect timer firing (with the reconnect
constructor possibly throwing), and a message delivered on connection `i`. -/
inductive SseEv where
  | transportError (i : Nat)
  | timerFire (ctorFails : Bool)
  | message (i : Nat) (msg : SseMsg)
  deriving DecidableEq

/-- The `eventSource.close()` call of the reconnect callback: close the
connection the `eventSource` variable currently holds. -/
def closeCurrent (s : SseState) : List Conn :=
  match s.conns[s.current]? with
  | some c => s.conns.set s.current { c with closed := true }
  | none => s.conns

/-- One step of the subscription. An error or message on a closed
connection is never delivered; on an open connection it runs the handler
assigned to that object, if any. The onerror handler (Poll.vue lines
218-233) schedules a 5000 ms reconnect timer; when the timer fires, the
current connection is closed first and then a fresh EventSource — with no
handlers assigned — is constructed and stored in `eventSource`, unless the
constructor throws, which is merely logged. -/
def sseStep (s : SseState) (ev : SseEv) : SseState :=
  match ev with
  | .transportError i =>
      match s.conns[i]? with
      | some c =>
          if c.closed then s
          else if c.hasHandlers then
            { s with pendingDelays := s.pendingDelays ++ [5000],
                     logs := s.logs ++ [⟨.error, "SSE连接错误:"⟩] }
          else s
      | none => s
  | .timerFire cf =>
      match s.pendingDelays with
      | [] => s
      | _ :: rest =>
          let conns1 := closeCurrent s
          if cf then
            { s with conns := conns1, pendingDelays := rest,
                     logs := s.logs ++ [⟨.error, "SSE重连失败:"⟩] }
          else
            { s with conns := conns1 ++ [⟨false, false⟩],
                     current := conns1.length,
                     pendingDelays := rest,
                     logs := s.logs ++ [⟨.info, "SSE连接已重新建立"⟩] }
  | .message i msg =>
      match s.conns[i]? with
      | some c =>
          if c.closed || !c.hasHandlers then s
          else
            let r := onmessage s.opts s.env msg false
            { s with opts := r.1, env := r.2.1, logs := s.logs ++ r.2.2 }
      | none => s

/-- A chart environment holding exactly the chart created from the snapshot
with one option "Go" with 3 votes, as after a successful mount. -/
def env0 : ChartEnv := ⟨[⟨⟨["Go"], [3]⟩, true⟩], some 0⟩

/-- The subscription state right after a successful mount: one open
EventSource with both handlers assigned, no pending timer, the fetched
snapshot in the store and its chart created. -/
def sseInit : SseState :=
  { conns := [⟨false, true⟩], current := 0, pendingDelays := [],
    opts := [⟨1, "Go", 3⟩], env := env0, logs := [] }

/-- Run the subscription over a sequence of events. -/
def runSse (s : SseState) (evs : List SseEv) : SseState :=
  evs.foldl sseStep s

/-- Number of EventSource objects not yet closed. -/
def openCount (s : SseState) : Nat :=
  s.conns.countP (fun c => !c.closed)

/-- Number of chart resources not yet destroyed. -/
def liveCount (env : ChartEnv) : Nat :=
  env.resources.countP (fun r => r.live)

/-- Chart resource invariant: every live chart resource is the one the
`chart` variable currently points to. -/
def ChartEnv.wf (env : ChartEnv) : Prop :=
  ∀ j c, env.resources[j]? = some c → c.live = true → env.chartVar = some j

/-- The outcome of the activation sequence: component state, chart state,
whether the SSE connection was opened, and the emitted logs. -/
structure InitResult where
  st : StoreState
  env : ChartEnv
  sseOpened : Bool
  logs : List LogEntry
  deriving DecidableEq

/-- The onMounted activation sequence (Poll.vue lines 180-237): await the
initial fetch, then (when the fetched snapshot is non-empty) initialize the
chart, then open the SSE connection; the single surrounding try/catch logs
any error thrown before that point and performs nothing further. `stored`
is the value read from localStorage at startup. -/
def onMounted (stored : Bool) (fetchRes : Except Unit RespData)
    (canvasPresent ctorFails : Bool) : InitResult :=
  let st0 : StoreState := ⟨[], none, stored, stored⟩
  match fetchData st0 fetchRes with
  | (st1, .error _, l1) =>
      ⟨st1, ChartEnv.init, false, l1 ++ [⟨.error, "初始化失败:"⟩]⟩
  | (st1, .ok _, l1) =>
      if st1.options.isEmpty then
        ⟨st1, ChartEnv.init, true,
          l1 ++ [⟨.warn, "数据获取成功，但没有选项数据或格式不正确"⟩]⟩
      else
        let r := initChart st1.options ChartEnv.init canvasPresent ctorFails
        ⟨st1, r.1, true,
          l1 ++ [⟨.info, "数据获取成功，选项数量:"⟩] ++ r.2⟩

/-- Combined component state for reasoning over whole sessions. -/
structure SessionState where
  st : StoreState
  env : ChartEnv
  deriving DecidableEq

/-- The operations a session can perform after startup: a fetch completion,
a submitVote call, a user click selecting an option (guarded by `!hasVoted`
in the template), an SSE message, and a (re)initialization of the chart. -/
inductive SessionOp where
  | fetchOp (r : Except Unit RespData)
  | voteOp (pr : Except Unit Unit) (fr : Except Unit RespData) (uf : Bool)
  | selectOp (v : Int)
  | messageOp (m : SseMsg) (uf : Bool)
  | chartInitOp (cp cf : Bool)

/-- Effect of one session operation on the component state. -/
def sessionStep (s : SessionState) (op : SessionOp) : SessionState :=
  match op with
  | .fetchOp r => { s with st := (fetchData s.st r).1 }
  | .voteOp pr fr uf =>
      let r := submitVote s.st s.env pr fr uf
      ⟨r.st, r.env⟩
  | .selectOp v =>
      if s.st.hasVoted then s
      else { s with st := { s.st with selected := some v } }
  | .messageOp m uf =>
      let r := onmessage s.st.options s.env m uf
      ⟨{ s.st with options := r.1 }, r.2.1⟩
  | .chartInitOp cp cf =>
      { s with env := (initChart s.st.options s.env cp cf).1 }

/-- Run a session over a sequence of operations. -/
def runSession (s : SessionState) (ops : List SessionOp) : SessionState :=
  ops.foldl sessionStep s

/-- A concrete store state holding one option, used as counterexample
input. -/
def stGo : StoreState := ⟨[⟨1, "Go", 3⟩], none, false, false⟩

/-- A concrete SSE snapshot message carrying one record. -/
def msgGo4 : SseMsg := .snapshot [⟨1, "Go", 4⟩]

/-- A list whose members satisfying `p` all sit at one and the same index
has at most one of them. -/
theorem countP_le_one_of_unique {α : Type} (p : α → Bool) :
    ∀ (l : List α) (k : Nat),
      (∀ j c, l[j]? = some c → p c = true → j = k) → l.countP p ≤ 1 := by
  intro l
  induction l with
  | nil => intro k h; simp
  | cons a t ih =>
      intro k h
      rw [List.countP_cons]
      by_cases hp : p a = true
      · have hk : 0 = k := h 0 a (by simp) hp
        have ht : t.countP p = 0 := by
          rw [List.countP_eq_zero]
          intro x hx hpx
          obtain ⟨n, hn⟩ := List.mem_iff_getElem?.1 hx
          have := h (n + 1) x (by simpa using hn) (by simpa using hpx)
          omega
        simp [hp, ht]
      · have hp' : p a = false := by
          cases hpa : p a
          · rfl
          · exact absurd hpa hp
        simp only [hp', if_false, Nat.add_zero]
        apply ih (k - 1)
        intro j c hj hc
        have := h (j + 1) c (by simpa using hj) hc
        omega

/-- Setting an index to an element with the same `p`-value keeps the
`p`-count. -/
theorem countP_set_eq {α : Type} (p : α → Bool) :
    ∀ (l : List α) (i : Nat) (b : α),
      (∀ a, l[i]? = some a → p b = p a) → (l.set i b).countP p = l.countP p := by
  intro l
  induction l with
  | nil => intro i b _; rfl
  | cons a t ih =>
      intro i b h
      cases i with
      | zero =>
          have hpb : p b = p a := h a (by simp)
          simp [List.set, List.countP_cons, hpb]
      | succ n =>
          have := ih n b (by intro x hx; exact h x (by simpa using hx))
          simp [List.set, List.countP_cons, this]

/-- fetchData never touches the vote state or the selection. -/
theorem fetchData_fields (st : StoreState) (r : Except Unit RespData) :
    (fetchData st r).1.hasVoted = st.hasVoted ∧
    (fetchData st r).1.localHasVoted = st.localHasVoted ∧
    (fetchData st r).1.selected = st.selected := by
  rcases r with e | d
  · exact ⟨rfl, rfl, rfl⟩
  · rcases d with _ | opts
    · exact ⟨rfl, rfl, rfl⟩
    · rcases opts with _ | _ | l <;> exact ⟨rfl, rfl, rfl⟩

/-- Reading the just-destroyed index of `destroyIdx`. -/
theorem destroyIdx_get_self (l : List ChartRec) (i : Nat) (r : ChartRec)
    (h : l[i]? = some r) : (destroyIdx l i)[i]? = some { r with live := false } := by
  have hlen : i < l.length := by
    by_contra hge
    rw [List.getElem?_eq_none (by omega)] at h
    exact Option.noConfusion h
  simp [destroyIdx, h, List.getElem?_set_self hlen]

/-- Reading any other index of `destroyIdx`. -/
theorem destroyIdx_get_ne (l : List ChartRec) (i j : Nat) (hne : i ≠ j) :
    (destroyIdx l i)[j]? = l[j]? := by
  unfold destroyIdx
  cases h : l[i]? with
  | none => rfl
  | some r => simp [List.getElem?_set_ne hne]

/-- After `destroyCurrent`, a well-formed chart environment has no live
resource left at all. -/
theorem destroyCurrent_dead (env : ChartEnv) (hwf : env.wf) :
    ∀ (j : Nat) (c : ChartRec), (destroyCurrent env)[j]? = some c → c.live = false := by
  intro j c hj
  cases hv : env.chartVar with
  | none =>
      cases hl : c.live
      · rfl
      · rw [destroyCurrent, hv] at hj
        have := hwf j c hj hl
        rw [hv] at this
        exact Option.noConfusion this
  | some i =>
      rw [destroyCurrent, hv] at hj
      by_cases hij : i = j
      · subst hij
        cases hres : env.resources[i]? with
        | none =>
            simp only [destroyIdx, hres] at hj
            exact Option.noConfusion hj
        | some r =>
            rw [destroyIdx_get_self env.resources i r hres] at hj
            cases hj
            rfl
      · rw [destroyIdx_get_ne env.resources i j hij] at hj
        cases hl : c.live
        · rfl
        · have := hwf j c hj hl
          rw [hv] at this
          exact absurd (Option.some.inj this) (by omega)

/-- A well-formed chart environment has at most one live resource. -/
theorem wf_liveCount (env : ChartEnv) (hwf : env.wf) : liveCount env ≤ 1 := by
  cases hv : env.chartVar with
  | none =>
      have : env.resources.countP (fun r => r.live) = 0 := by
        rw [List.countP_eq_zero]
        intro r hr hlive
        obtain ⟨n, hn⟩ := List.mem_iff_getElem?.1 hr
        have := hwf n r hn (by simpa using hlive)
        rw [hv] at this
        exact Option.noConfusion this
      rw [liveCount, this]
      omega
  | some k =>
      apply countP_le_one_of_unique (fun r => r.live) env.resources k
      intro j c hj hc
      have := hwf j c hj hc
      rw [hv] at this
      exact (Option.some.inj this).symm

/-- An index answered by `getElem?` is in bounds. -/
theorem getElem?_lt {α : Type} (l : List α) (i : Nat) (a : α) (h : l[i]? = some a) :
    i < l.length := by
  by_contra hge
  rw [List.getElem?_eq_none (by omega)] at h
  exact Option.noConfusion h

/-- Destroying a resource keeps the number of allocated resources. -/
theorem destroyIdx_length (l : List ChartRec) (i : Nat) :
    (destroyIdx l i).length = l.length := by
  unfold destroyIdx
  cases l[i]? <;> simp

/-- `destroyCurrent` keeps the number of allocated resources. -/
theorem destroyCurrent_length (env : ChartEnv) :
    (destroyCurrent env).length = env.resources.length := by
  unfold destroyCurrent
  cases env.chartVar with
  | none => rfl
  | some i => exact destroyIdx_length env.resources i

/-- initChart preserves the chart resource invariant. -/
theorem initChart_wf (o : List PollOption) (env : ChartEnv) (cp cf : Bool)
    (hwf : env.wf) : (initChart o env cp cf).1.wf := by
  cases ho : o.isEmpty with
  | true => simpa [initChart, ho] using hwf
  | false =>
      cases cp with
      | false => simpa [initChart, ho] using hwf
      | true =>
          cases cf with
          | true =>
              intro j c hj hl
              simp only [initChart, ho, Bool.not_true, Bool.false_eq_true,
                if_false, if_true] at hj
              have := destroyCurrent_dead env hwf j c hj
              rw [this] at hl
              exact Bool.noConfusion hl
          | false =>
              intro j c hj hl
              simp only [initChart, ho, Bool.not_true, Bool.false_eq_true,
                if_false, if_true] at hj ⊢
              by_cases hlt : j < (destroyCurrent env).length
              · rw [List.getElem?_append_left hlt] at hj
                have := destroyCurrent_dead env hwf j c hj
                rw [this] at hl
                exact Bool.noConfusion hl
              · have hge : (destroyCurrent env).length ≤ j := by omega
                rw [List.getElem?_append_right hge] at hj
                cases hsub : j - (destroyCurrent env).length with
                | zero =>
                    have hjl : j = (destroyCurrent env).length := by omega
                    rw [hjl]
                | succ m =>
                    rw [hsub] at hj
                    simp at hj

/-- After a successful create, the previously held resource is destroyed. -/
theorem initChart_destroys_old (o : List PollOption) (env : ChartEnv) (cf : Bool)
    (i : Nat) (hv : env.chartVar = some i) (hlt : i < env.resources.length)
    (ho : o.isEmpty = false) :
    ∀ (c : ChartRec), (initChart o env true cf).1.resources[i]? = some c →
      c.live = false := by
  intro c hc
  cases hres : env.resources[i]? with
  | none =>
      rw [List.getElem?_eq_getElem hlt] at hres
      exact Option.noConfusion hres
  | some r0 =>
      have hdc : (destroyCurrent env)[i]? = some { r0 with live := false } := by
        rw [destroyCurrent, hv]
        exact destroyIdx_get_self env.resources i r0 hres
      cases cf with
      | true =>
          simp only [initChart, ho, Bool.not_true, Bool.false_eq_true, if_false,
            if_true] at hc
          rw [hdc] at hc
          cases hc
          rfl
      | false =>
          simp only [initChart, ho, Bool.not_true, Bool.false_eq_true, if_false,
            if_true] at hc
          rw [List.getElem?_append_left
            (by rw [destroyCurrent_length]; exact hlt)] at hc
          rw [hdc] at hc
          cases hc
          rfl

/-- updateChart preserves the chart resource invariant. -/
theorem updateChart_wf (o : List PollOption) (env : ChartEnv) (uf : Bool)
    (hwf : env.wf) : (updateChart o env uf).1.wf := by
  cases hv : env.chartVar with
  | none => simpa [updateChart, hv] using hwf
  | some i =>
      cases ho : o.isEmpty with
      | true => simpa [updateChart, hv, ho] using hwf
      | false =>
          cases hres : env.resources[i]? with
          | none =>
              intro j c hj hl
              simp only [updateChart, hv, ho, hres, Bool.false_eq_true,
                if_false] at hj ⊢
              have := hwf j c hj hl
              rw [hv] at this
              exact this
          | some r =>
              intro j c hj hl
              simp only [updateChart, hv, ho, hres, Bool.false_eq_true,
                if_false] at hj ⊢
              by_cases hij : i = j
              · subst hij
                rfl
              · rw [List.getElem?_set_ne hij] at hj
                have := hwf j c hj hl
                rw [hv] at this
                exact this

/-- updateChart neither creates nor destroys a resource: the live count is
unchanged. -/
theorem updateChart_liveCount (o : List PollOption) (env : ChartEnv) (uf : Bool) :
    liveCount (updateChart o env uf).1 = liveCount env := by
  cases hv : env.chartVar with
  | none => simp [updateChart, hv]
  | some i =>
      cases ho : o.isEmpty with
      | true => simp [updateChart, hv, ho]
      | false =>
          cases hres : env.resources[i]? with
          | none => simp [updateChart, hv, ho, hres, liveCount]
          | some r =>
              simp only [updateChart, hv, ho, hres, Bool.false_eq_true, if_false,
                liveCount]
              exact countP_set_eq _ env.resources i _
                (by intro a ha; rw [hres] at ha; cases ha; rfl)

/-- The in-place mutation performed by updateChart when a chart exists and
the snapshot is non-empty. -/
theorem updateChart_mutates (o : List PollOption) (env : ChartEnv) (uf : Bool)
    (i : Nat) (r : ChartRec) (hv : env.chartVar = some i)
    (hres : env.resources[i]? = some r) (ho : o.isEmpty = false) :
    (updateChart o env uf).1.resources[i]? =
      some { r with cdata := ⟨o.map PollOption.text, o.map PollOption.votes⟩ } ∧
    (updateChart o env uf).1.chartVar = env.chartVar ∧
    (updateChart o env uf).1.resources.length = env.resources.length ∧
    (∀ (j : Nat), j ≠ i → (updateChart o env uf).1.resources[j]? = env.resources[j]?) := by
  refine ⟨?_, ?_, ?_, ?_⟩
  · simp only [updateChart, hv, ho, hres, Bool.false_eq_true, if_false]
    rw [List.getElem?_set_self (getElem?_lt _ _ _ hres)]
  · simp [updateChart, hv, ho, hres]
  · simp [updateChart, hv, ho, hres]
  · intro j hj
    simp only [updateChart, hv, ho, hres, Bool.false_eq_true, if_false]
    rw [List.getElem?_set_ne (Ne.symm hj)]

/-- The guard of submitVote: falsy selection or an already cast vote makes
the whole call a no-op. -/
theorem submitVote_guard_noop (st : StoreState) (env : ChartEnv)
    (pr : Except Unit Unit) (fr : Except Unit RespData) (uf : Bool)
    (h : (selectedFalsy st.selected || st.hasVoted) = true) :
    submitVote st env pr fr uf = ⟨st, env, [], false⟩ := by
  unfold submitVote
  rw [if_pos h]

/-- On a successful POST, the component state after submitVote is the state
after re-fetching with `hasVoted` and its persisted copy set. -/
theorem submitVote_success_state (st : StoreState) (env : ChartEnv)
    (fr : Except Unit RespData) (uf : Bool)
    (hs : selectedFalsy st.selected = false) (hv : st.hasVoted = false) :
    (submitVote st env (.ok ()) fr uf).st =
      (fetchData { st with hasVoted := true, localHasVoted := true } fr).1 := by
  unfold submitVote
  rw [if_neg (by simp [hs, hv])]
  rcases fr with e | d
  · rfl
  · rcases d with _ | opts
    · rfl
    · rcases opts with _ | _ | l <;> rfl

/-- The values of `hasVoted` and its persisted copy after any submitVote
call, as boolean functions of the inputs. -/
theorem submitVote_state (st : StoreState) (env : ChartEnv)
    (pr : Except Unit Unit) (fr : Except Unit RespData) (uf : Bool) :
    (submitVote st env pr fr uf).st.hasVoted =
      (st.hasVoted || (!selectedFalsy st.selected && !st.hasVoted && exceptOk pr)) ∧
    (submitVote st env pr fr uf).st.localHasVoted =
      (st.localHasVoted || (!selectedFalsy st.selected && !st.hasVoted && exceptOk pr)) := by
  by_cases hg : (selectedFalsy st.selected || st.hasVoted) = true
  · rw [submitVote_guard_noop st env pr fr uf hg]
    rcases Bool.or_eq_true_iff.mp hg with h | h <;> simp [h]
  · have hs : selectedFalsy st.selected = false := by
      cases h' : selectedFalsy st.selected
      · rfl
      · exact absurd (by rw [h']; rfl) hg
    have hv : st.hasVoted = false := by
      cases h' : st.hasVoted
      · rfl
      · exact absurd (by rw [h']; simp) hg
    rcases pr with u | u
    · have hnoop : submitVote st env (.error u) fr uf =
          ⟨st, env, [⟨.error, "提交投票失败:"⟩], true⟩ := by
        unfold submitVote
        rw [if_neg hg]
      rw [hnoop]
      simp [exceptOk, hs, hv]
    · cases u
      rw [submitVote_success_state st env fr uf hs hv]
      constructor
      · rw [(fetchData_fields _ _).1]
        simp [hs, hv, exceptOk]
      · rw [(fetchData_fields _ _).2.1]
        simp [hs, hv, exceptOk]

/-- A failed POST leaves both the component state and the chart state
unchanged. -/
theorem submitVote_fail_noop (st : StoreState) (env : ChartEnv)
    (fr : Except Unit RespData) (uf : Bool)
    (hs : selectedFalsy st.selected = false) (hv : st.hasVoted = false) :
    (submitVote st env (.error ()) fr uf).st = st ∧
    (submitVote st env (.error ()) fr uf).env = env := by
  unfold submitVote
  rw [if_neg (by simp [hs, hv])]
  exact ⟨rfl, rfl⟩

/-- No session operation can turn `hasVoted` off again. -/
theorem sessionStep_hasVoted (s : SessionState) (op : SessionOp)
    (h : s.st.hasVoted = true) : (sessionStep s op).st.hasVoted = true := by
  cases op with
  | fetchOp r =>
      show (fetchData s.st r).1.hasVoted = true
      rw [(fetchData_fields s.st r).1]
      exact h
  | voteOp pr fr uf =>
      show (submitVote s.st s.env pr fr uf).st.hasVoted = true
      rw [(submitVote_state s.st s.env pr fr uf).1, h]
      simp
  | selectOp v => simp [sessionStep, h]
  | messageOp m uf => exact h
  | chartInitOp cp cf => exact h

/-- `hasVoted`, once true, stays true over any whole session suffix. -/
theorem runSession_hasVoted (ops : List SessionOp) :
    ∀ (s : SessionState), s.st.hasVoted = true →
      (runSession s ops).st.hasVoted = true := by
  induction ops with
  | nil => intro s h; exact h
  | cons op t ih => intro s h; exact ih (sessionStep s op) (sessionStep_hasVoted s op h)

/-- Every session operation other than a vote submission leaves `hasVoted`
exactly as it was: submitVote is its only writer. -/
theorem sessionStep_nonvote_hasVoted (s : SessionState) (op : SessionOp)
    (h : ∀ (pr : Except Unit Unit) (fr : Except Unit RespData) (uf : Bool),
      op ≠ .voteOp pr fr uf) :
    (sessionStep s op).st.hasVoted = s.st.hasVoted := by
  cases op with
  | fetchOp r => exact (fetchData_fields s.st r).1
  | voteOp pr fr uf => exact absurd rfl (h pr fr uf)
  | selectOp v => cases hv : s.st.hasVoted <;> simp [sessionStep, hv]
  | messageOp m uf => rfl
  | chartInitOp cp cf => rfl

/-- `closeCurrent` keeps the number of connections. -/
theorem closeCurrent_length (s : SseState) :
    (closeCurrent s).length = s.conns.length := by
  unfold closeCurrent
  cases s.conns[s.current]? <;> simp

/-- Reading the current index after `closeCurrent`. -/
theorem closeCurrent_get_current (s : SseState) (c : Conn)
    (hcur : s.conns[s.current]? = some c) :
    (closeCurrent s)[s.current]? = some { c with closed := true } := by
  simp only [closeCurrent, hcur]
  rw [List.getElem?_set_self (getElem?_lt _ _ _ hcur)]

/-- If every open connection is the current one, `closeCurrent` leaves no
open connection at all. -/
theorem closeCurrent_closed (s : SseState)
    (hop : ∀ (j : Nat) (c : Conn), s.conns[j]? = some c → c.closed = false →
      j = s.current) :
    ∀ (j : Nat) (c : Conn), (closeCurrent s)[j]? = some c → c.closed = true := by
  intro j c hj
  cases hcur : s.conns[s.current]? with
  | none =>
      simp only [closeCurrent, hcur] at hj
      cases hcl : c.closed
      · have hj' := hop j c hj hcl
        rw [hj'] at hj
        rw [hcur] at hj
        exact Option.noConfusion hj
      · rfl
  | some c0 =>
      simp only [closeCurrent, hcur] at hj
      by_cases hij : s.current = j
      · subst hij
        rw [List.getElem?_set_self (getElem?_lt _ _ _ hcur)] at hj
        cases hj
        rfl
      · rw [List.getElem?_set_ne hij] at hj
        cases hcl : c.closed
        · exact absurd (hop j c hj hcl).symm hij
        · rfl

/-- One subscription step preserves the two run invariants: every pending
reconnect delay is the fixed 5000 ms, and every open connection is the one
the `eventSource` variable holds. -/
theorem sseStep_inv (s : SseState) (ev : SseEv)
    (h5 : ∀ d ∈ s.pendingDelays, d = 5000)
    (hop : ∀ (j : Nat) (c : Conn), s.conns[j]? = some c → c.closed = false →
      j = s.current) :
    (∀ d ∈ (sseStep s ev).pendingDelays, d = 5000) ∧
    (∀ (j : Nat) (c : Conn), (sseStep s ev).conns[j]? = some c → c.closed = false →
      j = (sseStep s ev).current) := by
  cases ev with
  | transportError i =>
      cases hi : s.conns[i]? with
      | none => simp only [sseStep, hi]; exact ⟨h5, hop⟩
      | some c0 =>
          cases hcl : c0.closed with
          | true => simp only [sseStep, hi, hcl, if_true]; exact ⟨h5, hop⟩
          | false =>
              cases hh : c0.hasHandlers with
              | false => simp only [sseStep, hi, hcl, hh, Bool.false_eq_true,
                  if_false]; exact ⟨h5, hop⟩
              | true =>
                  simp only [sseStep, hi, hcl, hh, Bool.false_eq_true, if_false,
                    if_true]
                  refine ⟨?_, hop⟩
                  intro d hd
                  rcases List.mem_append.mp hd with h | h
                  · exact h5 d h
                  · simpa using h
  | message i m =>
      cases hi : s.conns[i]? with
      | none => simp only [sseStep, hi]; exact ⟨h5, hop⟩
      | some c0 =>
          cases hor : (c0.closed || !c0.hasHandlers) with
          | true => simp only [sseStep, hi, hor, if_true]; exact ⟨h5, hop⟩
          | false =>
              simp only [sseStep, hi, hor, Bool.false_eq_true, if_false]
              exact ⟨h5, hop⟩
  | timerFire cf =>
      cases hd : s.pendingDelays with
      | nil => simp only [sseStep, hd]; exact ⟨by simp, hop⟩
      | cons d rest =>
          have h5' : ∀ x ∈ rest, x = 5000 := by
            intro x hx
            exact h5 x (by rw [hd]; exact List.mem_cons_of_mem d hx)
          cases cf with
          | true =>
              simp only [sseStep, hd, if_true]
              refine ⟨h5', ?_⟩
              intro j c hj hc
              have := closeCurrent_closed s hop j c hj
              rw [this] at hc
              exact Bool.noConfusion hc
          | false =>
              simp only [sseStep, hd, Bool.false_eq_true, if_false]
              refine ⟨h5', ?_⟩
              intro j c hj hc
              by_cases hlt : j < (closeCurrent s).length
              · rw [List.getElem?_append_left hlt] at hj
                have := closeCurrent_closed s hop j c hj
                rw [this] at hc
                exact Bool.noConfusion hc
              · have hge : (closeCurrent s).length ≤ j := by omega
                rw [List.getElem?_append_right hge] at hj
                cases hsub : j - (closeCurrent s).length with
                | zero => omega
                | succ m =>
                    rw [hsub] at hj
                    simp at hj

/-- The two run invariants hold after any event sequence, given they hold
at the start. -/
theorem runSse_inv (evs : List SseEv) :
    ∀ (s : SseState),
      (∀ d ∈ s.pendingDelays, d = 5000) →
      (∀ (j : Nat) (c : Conn), s.conns[j]? = some c → c.closed = false →
        j = s.current) →
      ((∀ d ∈ (runSse s evs).pendingDelays, d = 5000) ∧
       (∀ (j : Nat) (c : Conn), (runSse s evs).conns[j]? = some c →
         c.closed = false → j = (runSse s evs).current)) := by
  induction evs with
  | nil => intro s h5 hop; exact ⟨h5, hop⟩
  | cons ev t ih =>
      intro s h5 hop
      have h := sseStep_inv s ev h5 hop
      exact ih (sseStep s ev) h.1 h.2

/-- C1 counterexample: with a non-empty prior snapshot, a failed fetch does
not leave the stored snapshot untouched — the store is cleared. -/
theorem fetchData_error_cex :
    (fetchData stGo (Except.error ())).1.options ≠ stGo.options := by decide

/-- C1 (amended): if fetchSnapshot fails with a network/transport error, the
stored snapshot is reset to the empty list (not left untouched) and the
error is rethrown, while the vote state and the selection are unchanged and
the failure is logged. -/
theorem fetchData_error_resets :
    ∀ (st : StoreState) (e : Unit),
      (fetchData st (Except.error e)).1 = { st with options := [] } ∧
      (fetchData st (Except.error e)).2.1 = Except.error e ∧
      (fetchData st (Except.error e)).1.hasVoted = st.hasVoted ∧
      (fetchData st (Except.error e)).1.selected = st.selected ∧
      ⟨LogLevel.error, "获取数据失败:"⟩ ∈ (fetchData st (Except.error e)).2.2 := by
  intro st e
  refine ⟨rfl, rfl, rfl, rfl, ?_⟩
  simp [fetchData, Store.replace]

/-- C2 counterexample: when the initial fetch fails, the SSE connection is
not opened afterwards. -/
theorem onMounted_fetch_error_cex :
    (onMounted false (Except.error ()) true false).sseOpened = false := rfl

/-- C2 (amended): when the initial fetch fails during activation, the
failure propagates to the activation sequence, which catches and logs it —
but the remaining initialization is skipped: no chart is initialized and
the SSE connection is not opened. -/
theorem onMounted_fetch_error_aborts :
    ∀ (stored cp cf : Bool) (e : Unit),
      (onMounted stored (Except.error e) cp cf).sseOpened = false ∧
      (onMounted stored (Except.error e) cp cf).env = ChartEnv.init ∧
      ⟨LogLevel.error, "初始化失败:"⟩ ∈
        (onMounted stored (Except.error e) cp cf).logs := by
  intro stored cp cf e
  refine ⟨rfl, rfl, ?_⟩
  simp [onMounted, fetchData, Store.replace]

/-- C3: evaluation of the subscription at the failing input. On the
original connection a well-formed message replaces the store and updates
the chart; but after one error-triggered reconnection the current
connection carries no handlers, so the same message leaves the store and
chart untouched and a further transport error schedules nothing — an inert
terminal state, contradicting the claimed absence of one. -/
theorem sse_reconnected_connection_inert :
    ((runSse sseInit [SseEv.message 0 msgGo4]).opts = [⟨1, "Go", 4⟩] ∧
     (runSse sseInit [SseEv.message 0 msgGo4]).env =
       ⟨[⟨⟨["Go"], [4]⟩, true⟩], some 0⟩) ∧
    ((runSse sseInit [SseEv.transportError 0, SseEv.timerFire false,
        SseEv.message 1 msgGo4, SseEv.transportError 1]).current = 1 ∧
     (runSse sseInit [SseEv.transportError 0, SseEv.timerFire false,
        SseEv.message 1 msgGo4, SseEv.transportError 1]).conns =
       [⟨true, true⟩, ⟨false, false⟩] ∧
     (runSse sseInit [SseEv.transportError 0, SseEv.timerFire false,
        SseEv.message 1 msgGo4, SseEv.transportError 1]).opts = sseInit.opts ∧
     (runSse sseInit [SseEv.transportError 0, SseEv.timerFire false,
        SseEv.message 1 msgGo4, SseEv.transportError 1]).env = sseInit.env ∧
     (runSse sseInit [SseEv.transportError 0, SseEv.timerFire false,
        SseEv.message 1 msgGo4, SseEv.transportError 1]).pendingDelays = []) := by
  decide

/-- C4 counterexample: after one reconnection the current connection is
open, yet a transport error on it schedules no new connection attempt. -/
theorem sse_error_after_reconnect_cex :
    ((runSse sseInit [SseEv.transportError 0,
        SseEv.timerFire false]).conns[(runSse sseInit [SseEv.transportError 0,
        SseEv.timerFire false]).current]? = some ⟨false, false⟩) ∧
    (sseStep (runSse sseInit [SseEv.transportError 0, SseEv.timerFire false])
      (SseEv.transportError 1)).pendingDelays = [] := by
  decide

/-- C4 (amended): every scheduled reconnect delay is the fixed 5000 ms and
at every reachable point at most one connection is non-closed; a transport
error delivered to a connection that carries the error handler (only the
original connection does) schedules exactly one new 5000 ms attempt; and
when the reconnect timer fires, the old current connection is closed in the
same step in which the new one may be opened. -/
theorem sse_reconnect_disciplined :
    ∀ (evs : List SseEv),
      (∀ d ∈ (runSse sseInit evs).pendingDelays, d = 5000) ∧
      openCount (runSse sseInit evs) ≤ 1 ∧
      (∀ (s : SseState) (i : Nat) (c : Conn), s.conns[i]? = some c →
        c.closed = false → c.hasHandlers = true →
        (sseStep s (SseEv.transportError i)).pendingDelays =
          s.pendingDelays ++ [5000]) ∧
      (∀ (s : SseState) (cf : Bool) (d : Nat) (rest : List Nat) (c : Conn),
        s.pendingDelays = d :: rest → s.conns[s.current]? = some c →
        (sseStep s (SseEv.timerFire cf)).conns[s.current]? =
          some { c with closed := true }) := by
  intro evs
  have hinit5 : ∀ d ∈ sseInit.pendingDelays, d = 5000 := by simp [sseInit]
  have hinitop : ∀ (j : Nat) (c : Conn), sseInit.conns[j]? = some c →
      c.closed = false → j = sseInit.current := by
    intro j c hj hc
    cases j with
    | zero => rfl
    | succ n => simp [sseInit] at hj
  have hinv := runSse_inv evs sseInit hinit5 hinitop
  refine ⟨hinv.1, ?_, ?_, ?_⟩
  · unfold openCount
    apply countP_le_one_of_unique (fun c : Conn => !c.closed)
      (runSse sseInit evs).conns (runSse sseInit evs).current
    intro j c hj hp
    apply hinv.2 j c hj
    cases hcl : c.closed
    · rfl
    · rw [hcl] at hp
      simp at hp
  · intro s i c h hcl hh
    simp [sseStep, h, hcl, hh]
  · intro s cf d rest c hd hcur
    cases cf with
    | true =>
        simp only [sseStep, hd, if_true]
        exact closeCurrent_get_current s c hcur
    | false =>
        simp only [sseStep, hd, Bool.false_eq_true, if_false]
        rw [List.getElem?_append_left (by
          rw [closeCurrent_length]
          exact getElem?_lt _ _ _ hcur)]
        exact closeCurrent_get_current s c hcur

/-- C4 witness: the discipline theorem applied at the mounted state — the
transport error on the initial, handler-bearing connection schedules one
5000 ms reconnect timer. -/
theorem sse_reconnect_disciplined_witness :
    (sseStep sseInit (SseEv.transportError 0)).pendingDelays =
      sseInit.pendingDelays ++ [5000] :=
  (sse_reconnect_disciplined []).2.2.1 sseInit 0 ⟨false, true⟩ rfl rfl rfl

/-- C5: `hasVoted` becomes true (and its persisted copy with it) exactly
when the selection is truthy, no vote was cast before, and the POST
succeeds; a falsy selection or a prior vote makes submitVote a complete
no-op; a failed POST leaves state and chart untouched so a retry is
possible; over a whole session `hasVoted` never reverts from true, and no
session operation other than submitVote ever changes it. -/
theorem submitVote_gating :
    ∀ (st : StoreState) (env : ChartEnv) (pr : Except Unit Unit)
      (fr : Except Unit RespData) (uf : Bool),
      ((submitVote st env pr fr uf).st.hasVoted =
        (st.hasVoted || (!selectedFalsy st.selected && !st.hasVoted && exceptOk pr))) ∧
      ((submitVote st env pr fr uf).st.localHasVoted =
        (st.localHasVoted || (!selectedFalsy st.selected && !st.hasVoted && exceptOk pr))) ∧
      ((selectedFalsy st.selected || st.hasVoted) = true →
        submitVote st env pr fr uf = ⟨st, env, [], false⟩) ∧
      (selectedFalsy st.selected = false → st.hasVoted = false →
        (submitVote st env (Except.error ()) fr uf).st = st ∧
        (submitVote st env (Except.error ()) fr uf).env = env) ∧
      (∀ (ops : List SessionOp) (s : SessionState), s.st.hasVoted = true →
        (runSession s ops).st.hasVoted = true) ∧
      (∀ (s : SessionState) (op : SessionOp),
        (∀ (pr2 : Except Unit Unit) (fr2 : Except Unit RespData) (uf2 : Bool),
          op ≠ SessionOp.voteOp pr2 fr2 uf2) →
        (sessionStep s op).st.hasVoted = s.st.hasVoted) := by
  intro st env pr fr uf
  exact ⟨(submitVote_state st env pr fr uf).1,
         (submitVote_state st env pr fr uf).2,
         submitVote_guard_noop st env pr fr uf,
         fun hs hv => submitVote_fail_noop st env fr uf hs hv,
         fun ops s h => runSession_hasVoted ops s h,
         fun s op h => sessionStep_nonvote_hasVoted s op h⟩

/-- C5 witness: the gating theorem applied at a concrete state with no
selection, the guard hypothesis discharged by computation. -/
theorem submitVote_gating_witness :
    submitVote ⟨[], none, false, false⟩ ChartEnv.init (Except.ok ())
      (Except.ok RespData.nullish) false =
      ⟨⟨[], none, false, false⟩, ChartEnv.init, [], false⟩ :=
  (submitVote_gating ⟨[], none, false, false⟩ ChartEnv.init (Except.ok ())
    (Except.ok RespData.nullish) false).2.2.1 rfl

/-- C6: a response carrying an `Options` array is normalized elementwise
(ID to id, Text to text, Votes to votes) preserving server order; a falsy
response or one whose Options field is absent or not an array yields the
empty snapshot with a warning logged; and chart creation on the empty
snapshot is skipped with a warning, leaving the chart state unchanged. -/
theorem fetchData_normalizes :
    ∀ (st : StoreState) (l : List ApiOption) (env : ChartEnv) (cp cf : Bool),
      ((fetchData st (Except.ok (RespData.obj (OptionsField.seq l)))).1.options =
        l.map apiToOption) ∧
      ((fetchData st (Except.ok RespData.nullish)).1.options = [] ∧
        ⟨LogLevel.warn, "API返回的数据格式不正确:"⟩ ∈
          (fetchData st (Except.ok RespData.nullish)).2.2) ∧
      ((fetchData st (Except.ok (RespData.obj OptionsField.missing))).1.options = []) ∧
      ((fetchData st (Except.ok (RespData.obj OptionsField.notSeq))).1.options = []) ∧
      (initChart [] env cp cf =
        (env, [⟨LogLevel.warn, "初始化图表失败：没有选项数据或数据格式不正确"⟩])) := by
  intro st l env cp cf
  exact ⟨rfl, ⟨rfl, by simp [fetchData]⟩, rfl, rfl, rfl⟩

/-- C7: chart creation destroys any prior chart resource before building
the new one, is skipped with a log when the snapshot is empty or the
drawing surface is missing (leaving chart state unchanged), and — under the
resource invariant, which holds for the initial environment and is
preserved by create and by update — at most one live chart resource exists
at any time. -/
theorem initChart_single_resource :
    ∀ (o : List PollOption) (env : ChartEnv) (cp cf uf : Bool),
      env.wf →
      ((initChart o env cp cf).1.wf ∧
       liveCount (initChart o env cp cf).1 ≤ 1 ∧
       (updateChart o env uf).1.wf ∧
       liveCount (updateChart o env uf).1 = liveCount env ∧
       ChartEnv.init.wf ∧
       (o = [] → initChart o env cp cf =
         (env, [⟨LogLevel.warn, "初始化图表失败：没有选项数据或数据格式不正确"⟩])) ∧
       (o ≠ [] → initChart o env false cf =
         (env, [⟨LogLevel.error, "初始化图表失败：找不到canvas元素"⟩])) ∧
       (∀ (i : Nat), env.chartVar = some i → i < env.resources.length →
         o ≠ [] → ∀ (c : ChartRec),
           (initChart o env true cf).1.resources[i]? = some c →
             c.live = false)) := by
  intro o env cp cf uf hwf
  refine ⟨initChart_wf o env cp cf hwf,
          wf_liveCount _ (initChart_wf o env cp cf hwf),
          updateChart_wf o env uf hwf,
          updateChart_liveCount o env uf,
          ?_, ?_, ?_, ?_⟩
  · intro j c hj hl
    simp [ChartEnv.init] at hj
  · intro ho
    subst ho
    rfl
  · intro ho
    cases o with
    | nil => exact absurd rfl ho
    | cons a t => rfl
  · intro i hv hlt ho c hc
    apply initChart_destroys_old o env cf i hv hlt ?_ c hc
    cases o with
    | nil => exact absurd rfl ho
    | cons a t => rfl

/-- C7 witness: the invariant theorem applied at the empty initial chart
environment, whose invariant is discharged by computation. -/
theorem initChart_single_resource_witness :
    liveCount (initChart [⟨1, "Go", 3⟩] ChartEnv.init true false).1 ≤ 1 :=
  (initChart_single_resource [⟨1, "Go", 3⟩] ChartEnv.init true false false
    (by intro j c hj hl; simp [ChartEnv.init] at hj)).2.1

/-- C8 counterexample: with a chart resource present and an empty current
snapshot, updateChart leaves the chart's measure array at its old value
instead of mutating it to match the snapshot. -/
theorem updateChart_empty_snapshot_cex :
    (updateChart [] env0 false).1 = env0 ∧
    ((updateChart [] env0 false).1.resources[0]?.map
      (fun r => r.cdata.dataArr) = some [3]) ∧
    List.map PollOption.votes ([] : List PollOption) = [] := by
  decide

/-- C8 (amended): when a chart resource exists and the snapshot is
non-empty, updateChart mutates the resource's label and measure arrays in
place — the identity, the count and the liveness of the resources and the
chart variable are unchanged; when no chart exists, or the snapshot is
empty, the update is skipped with a log and nothing is created or
destroyed. -/
theorem updateChart_in_place :
    ∀ (o : List PollOption) (env : ChartEnv) (uf : Bool),
      (env.chartVar = none → updateChart o env uf =
        (env, [⟨LogLevel.warn, "更新图表失败：图表实例不存在"⟩])) ∧
      (o = [] → (updateChart o env uf).1 = env) ∧
      (∀ (i : Nat) (r : ChartRec), env.chartVar = some i →
        env.resources[i]? = some r → o ≠ [] →
        ((updateChart o env uf).1.resources[i]? =
           some { r with cdata :=
             ⟨o.map PollOption.text, o.map PollOption.votes⟩ } ∧
         (updateChart o env uf).1.chartVar = env.chartVar ∧
         (updateChart o env uf).1.resources.length = env.resources.length ∧
         (∀ (j : Nat), j ≠ i →
           (updateChart o env uf).1.resources[j]? = env.resources[j]?))) := by
  intro o env uf
  refine ⟨?_, ?_, ?_⟩
  · intro hv
    simp [updateChart, hv]
  · intro ho
    subst ho
    cases hv : env.chartVar with
    | none => simp [updateChart, hv]
    | some i => simp [updateChart, hv]
  · intro i r hv hres ho
    exact updateChart_mutates o env uf i r hv hres
      (by cases o with
          | nil => exact absurd rfl ho
          | cons a t => rfl)

/-- C8 witness: the in-place theorem applied at a concrete one-chart
environment and a non-empty snapshot — the measure array is mutated in
place. -/
theorem updateChart_in_place_witness :
    (updateChart [⟨1, "Go", 4⟩] env0 false).1.resources[0]? =
      some ⟨⟨["Go"], [4]⟩, true⟩ :=
  ((updateChart_in_place [⟨1, "Go", 4⟩] env0 false).2.2 0 ⟨⟨["Go"], [3]⟩, true⟩
    rfl rfl (by decide)).1

/-- C9: Store.replace is a full replacement — after it the stored options
equal exactly the given snapshot whatever was stored before, the rest of
the state is untouched — and it is idempotent: replacing twice with the
same snapshot equals replacing once. -/
theorem store_replace_full_and_idempotent :
    ∀ (st : StoreState) (s s2 : List PollOption),
      (Store.replace st s).options = s ∧
      Store.replace (Store.replace st s2) s = Store.replace st s ∧
      Store.replace (Store.replace st s) s = Store.replace st s ∧
      (Store.replace st s).hasVoted = st.hasVoted ∧
      (Store.replace st s).selected = st.selected := by
  intro st s s2
  exact ⟨rfl, rfl, rfl, rfl, rfl⟩

/-- C10: with the integer id 0 selected and no prior vote, submitVote is a
complete no-op — the guard treats id 0 like no selection, so no POST is
issued (`requested = false`) and nothing changes. -/
theorem submitVote_zero_id_noop :
    ∀ (st : StoreState) (env : ChartEnv) (pr : Except Unit Unit)
      (fr : Except Unit RespData) (uf : Bool),
      st.selected = some 0 → st.hasVoted = false →
      submitVote st env pr fr uf = ⟨st, env, [], false⟩ := by
  intro st env pr fr uf hsel hv
  apply submitVote_guard_noop
  rw [hsel, hv]
  rfl

/-- C10 witness: the zero-id no-op theorem at a concrete state holding an
option whose id is 0. -/
theorem submitVote_zero_id_noop_witness :
    submitVote ⟨[⟨0, "Go", 3⟩], some 0, false, false⟩ ChartEnv.init
      (Except.ok ()) (Except.ok RespData.nullish) false =
      ⟨⟨[⟨0, "Go", 3⟩], some 0, false, false⟩, ChartEnv.init, [], false⟩ :=
  submitVote_zero_id_noop ⟨[⟨0, "Go", 3⟩], some 0, false, false⟩ ChartEnv.init
    (Except.ok ()) (Except.ok RespData.nullish) false rfl rfl

end SimplePoll
